import Mathlib

/-!
Verification of the progress-tracking pipeline: a shallow embedding of the
commit categorizer, change extractor, progress assembler and search facade
(src/progress_tracker.py, src/storage_service.py, src/models.py,
src/main.py), with theorems settling the specified properties.

Python strings are embedded as Lean `String`; the Python string operations
used by the source (`lower`, `in`, `endswith`, `split`, `replace`, `strip`)
are defined below over the character list so that they are executable and
amenable to proof.
-/

/-- Python `needle in hay` on character lists: `needle` occurs contiguously. -/
def listContainsSub (needle : List Char) : List Char → Bool
  | [] => needle.isEmpty
  | c :: cs => needle.isPrefixOf (c :: cs) || listContainsSub needle cs

/-- Python `needle in hay` for strings (substring containment). -/
def pyContains (hay needle : String) : Bool :=
  listContainsSub needle.data hay.data

/-- Python `s.endswith(suf)`. -/
def pyEndsWith (s suf : String) : Bool :=
  suf.data.isSuffixOf s.data

/-- Python `s.lower()` (ASCII case folding, as exercised by the source). -/
def pyLower (s : String) : String :=
  String.mk (s.data.map Char.toLower)

/-- Python `s.split(sep)` for a one-character separator, on character lists. -/
def splitOnChar (c : Char) : List Char → List (List Char)
  | [] => [[]]
  | a :: rest =>
    let r := splitOnChar c rest
    if a = c then [] :: r
    else
      match r with
      | [] => [[a]]
      | h :: t => (a :: h) :: t

/-- Python `s.split("\n")`. -/
def pySplitNl (s : String) : List String :=
  (splitOnChar '\n' s.data).map String.mk

/-- Python `s.replace(pat, repl)` (all occurrences, left to right) for a
nonempty pattern `p :: ps`, on character lists; structural recursion on a
fuel bound so the kernel can evaluate it (with fuel at least the input
length the fuel never runs out). -/
def replaceFromAux (p : Char) (ps repl : List Char) : Nat → List Char → List Char
  | 0, l => l
  | _ + 1, [] => []
  | fuel + 1, c :: cs =>
    if (p :: ps).isPrefixOf (c :: cs) then
      repl ++ replaceFromAux p ps repl fuel (cs.drop ps.length)
    else c :: replaceFromAux p ps repl fuel cs

/-- Python `s.replace(pat, repl)` for a nonempty pattern `p :: ps`. -/
def replaceFrom (p : Char) (ps repl l : List Char) : List Char :=
  replaceFromAux p ps repl l.length l

/-- Python `s.replace(pat, repl)` for strings (an empty pattern leaves `s`
unchanged; the source only replaces the nonempty pattern "Title: "). -/
def pyReplace (s pat repl : String) : String :=
  match pat.data with
  | [] => s
  | p :: ps => String.mk (replaceFrom p ps repl.data s.data)

/-- Whitespace characters stripped by Python `str.strip()` (the ASCII ones;
the stored blobs only contain these). -/
def isPySpace (c : Char) : Bool :=
  c == ' ' || c == '\t' || c == '\n' || c == '\r' || c == Char.ofNat 11 || c == Char.ofNat 12

/-- Python `s.strip()` on character lists. -/
def pyStrip (l : List Char) : List Char :=
  ((l.dropWhile isPySpace).reverse.dropWhile isPySpace).reverse

/-- Python `s.strip()` for strings. -/
def pyStripS (s : String) : String :=
  String.mk (pyStrip s.data)

/-- Local calendar time, the shape `datetime` exposes to the source
(`replace(hour=0, minute=0)` needs the calendar fields). -/
structure DateTime where
  year : Nat
  month : Nat
  day : Nat
  hour : Nat
  minute : Nat
  second : Nat
  microsecond : Nat
deriving DecidableEq, Repr

/-- Linearization of a `DateTime` for chronological comparison (field ranges
of real datetimes make this order-preserving). -/
def DateTime.lin (d : DateTime) : Nat :=
  ((((((d.year * 13 + d.month) * 32 + d.day) * 24 + d.hour) * 60 + d.minute) * 60
      + d.second) * 1000000 + d.microsecond)

/-- Python `now.replace(hour=0, minute=0)` as written in
`ProgressTracker.create_progress_entry` and in `sync_from_git`: hour and
minute are zeroed, second and microsecond are kept. -/
def DateTime.replaceHourMinute (d : DateTime) : DateTime :=
  { d with hour := 0, minute := 0 }

/-- Modelled from the spec: local midnight, the start of the current day —
hours, minutes, seconds and sub-second parts all zero. Used only to compare
the source's `since` against the spec's words. -/
def midnight_of_spec (d : DateTime) : DateTime :=
  { d with hour := 0, minute := 0, second := 0, microsecond := 0 }

/-- Zero padding to two digits, for rendering `str(datetime)`. -/
def pad2 (n : Nat) : String :=
  if n < 10 then "0" ++ toString n else toString n

/-- Zero padding to six digits, for the microsecond part of `str(datetime)`. -/
def pad6 (n : Nat) : String :=
  if n < 10 then "00000" ++ toString n
  else if n < 100 then "0000" ++ toString n
  else if n < 1000 then "000" ++ toString n
  else if n < 10000 then "00" ++ toString n
  else if n < 100000 then "0" ++ toString n
  else toString n

/-- Python `str(datetime)`, interpolated into the stored blob as
`Date: {entry.date}`. -/
def dtToString (d : DateTime) : String :=
  toString d.year ++ "-" ++ pad2 d.month ++ "-" ++ pad2 d.day ++ " " ++
    pad2 d.hour ++ ":" ++ pad2 d.minute ++ ":" ++ pad2 d.second ++
    (if d.microsecond = 0 then "" else "." ++ pad6 d.microsecond)

/-- One commit as exposed by the version-control collaborator: message,
diff paths (`diff.a_path` per file), committed date, hash, author and the
insertion/deletion totals (spec section 6). -/
structure Commit where
  message : String
  diff_paths : List String
  committed_date : DateTime
  hexsha : String
  author : String
  insertions : Nat
  deletions : Nat
deriving DecidableEq, Repr

/-- A repository handle: the commits `iter_commits` traverses, newest
first. -/
structure RepoModel where
  commits : List Commit
deriving DecidableEq, Repr

/-- Modelled from the spec: the version-control collaborator's
`iterCommits(handle, since)` (GitPython is outside src/): one commit per
commit at or after `since`, inheriting the collaborator's newest-first
traversal order (spec sections 4.1 and 6). -/
def iter_commits (r : RepoModel) (since : DateTime) : List Commit :=
  r.commits.filter (fun c => since.lin ≤ c.committed_date.lin)

/-- The `CodeChange` record of src/models.py (`metadata` is its open
string-to-string mapping, embedded as an association list). -/
structure CodeChange where
  id : String
  timestamp : DateTime
  files_changed : List String
  description : String
  category : String
  commit_hash : Option String
  metadata : List (String × String)
deriving DecidableEq, Repr

/-- The `ProgressEntry` record of src/models.py. -/
structure ProgressEntry where
  id : String
  date : DateTime
  title : String
  description : String
  changes : List CodeChange
  category : String
  tags : List String
  impact_level : String
deriving DecidableEq, Repr

/-- The `SearchQuery` record of src/models.py. -/
structure SearchQuery where
  query : String
  categories : Option (List String)
  date_range : Option (DateTime × DateTime)
  tags : Option (List String)
deriving DecidableEq, Repr

/-- Test-file suffix check of `ProgressTracker._categorize_commit`:
`f.endswith(('.test.ts', '.spec.ts', 'test.py'))`. -/
def isTestFile (f : String) : Bool :=
  pyEndsWith f ".test.ts" || pyEndsWith f ".spec.ts" || pyEndsWith f "test.py"

/-- Stylesheet/markup suffix check of `ProgressTracker._categorize_commit`:
`f.endswith(('.css', '.scss', '.html'))`. -/
def isUiFile (f : String) : Bool :=
  pyEndsWith f ".css" || pyEndsWith f ".scss" || pyEndsWith f ".html"

namespace ProgressTracker

/-- Embedding of `ProgressTracker._categorize_commit` (src/progress_tracker.py
lines 32-48), applied to the commit's diff paths and message. -/
def categorize_commit (files : List String) (message : String) : String :=
  let msg := pyLower message
  if files.any isTestFile then "testing"
  else if files.any isUiFile then "ui"
  else if pyContains msg "fix" || pyContains msg "bug" then "bugfix"
  else if pyContains msg "feature" then "feature"
  else if pyContains msg "refactor" then "refactor"
  else "other"

/-- The `CodeChange` built for the commit at position `i` of the traversal
(`id = str(len(changes))` equals the position at append time). -/
def change_of_commit (i : Nat) (c : Commit) : CodeChange :=
  { id := toString i
  , timestamp := c.committed_date
  , files_changed := c.diff_paths
  , description := c.message
  , category := categorize_commit c.diff_paths c.message
  , commit_hash := some c.hexsha
  , metadata :=
      [ ("author", c.author)
      , ("lines_added", toString c.insertions)
      , ("lines_deleted", toString c.deletions) ] }

/-- Embedding of `ProgressTracker.get_recent_changes` (src/progress_tracker.py
lines 12-30). -/
def get_recent_changes (r : RepoModel) (since : DateTime) : List CodeChange :=
  (iter_commits r since).enum.map (fun p => change_of_commit p.1 p.2)

/-- Embedding of `ProgressTracker.create_progress_entry`
(src/progress_tracker.py lines 50-66). `now` stands for the `datetime.now()` of the call; `tags = none`
models the omitted (Python `None`) argument, and `tags or []` is
`Option.getD`. -/
def create_progress_entry (r : RepoModel) (now : DateTime)
    (title description category : String)
    (tags : Option (List String)) (impact_level : String) : ProgressEntry :=
  let recent_changes := get_recent_changes r now.replaceHourMinute
  { id := toString now.lin
  , date := now
  , title := title
  , description := description
  , changes := recent_changes
  , category := category
  , tags := tags.getD []
  , impact_level := impact_level }

/-- A call to `create_progress_entry` with both defaultable arguments
omitted: Python supplies `tags = None` and `impact_level = "minor"`. -/
def create_progress_entry_defaults (r : RepoModel) (now : DateTime)
    (title description category : String) : ProgressEntry :=
  create_progress_entry r now title description category none "minor"

end ProgressTracker

/-- The metadata record `ProgressStorage.add_entry` attaches to a stored
text (src/storage_service.py lines 71-77). The source stores
`date.isoformat()` and `json.dumps(tags)` and reads them back with
`datetime.fromisoformat` and `json.loads`; these inverse pairs are
embedded as the identity, keeping the typed values. -/
structure StoredMeta where
  id : String
  date : DateTime
  category : String
  tags : List String
  impact_level : String
deriving DecidableEq, Repr

/-- One stored document of the vector-store collaborator: the free-text
blob and its metadata. -/
structure Doc where
  page_content : String
  metadata : StoredMeta
deriving DecidableEq, Repr

/-- The vector-store collection: stored documents in insertion order. -/
structure Store where
  docs : List Doc
deriving DecidableEq, Repr

/-- The filter dict `ProgressStorage.search` builds (src/storage_service.py
lines 84-88): an optional `category $in` list and an optional `tags $in`
list; a field is present only when the query value is truthy (neither
`None` nor empty). -/
structure FilterDict where
  category_in : Option (List String)
  tags_in : Option (List String)
deriving DecidableEq, Repr

namespace ProgressStorage

/-- Embedding of `ProgressStorage._format_changes` (src/storage_service.py
lines 40-51).
`change.metadata.get(key, 0)` is an association-list lookup with default
"0" (the interpolation of Python's default `0`). -/
def format_changes (changes : List CodeChange) : String :=
  String.intercalate "\n" (changes.map (fun change =>
    "- " ++ change.description ++ "\n" ++
    "  Files: " ++ String.intercalate ", " change.files_changed ++ "\n" ++
    "  Category: " ++ change.category ++ "\n" ++
    "  Impact: " ++
      ((change.metadata.find? (fun p => p.1 = "lines_added")).map Prod.snd).getD "0" ++
      " additions, " ++
      ((change.metadata.find? (fun p => p.1 = "lines_deleted")).map Prod.snd).getD "0" ++
      " deletions"))

/-- The free-text blob `ProgressStorage.add_entry` stores (the f-string of
src/storage_service.py lines 56-68, whitespace reproduced exactly: every
line is indented by eight spaces and the blank lines carry eight spaces). -/
def entry_text (entry : ProgressEntry) : String :=
  "\n        Title: " ++ entry.title ++
  "\n        Date: " ++ dtToString entry.date ++
  "\n        Category: " ++ entry.category ++
  "\n        Tags: " ++ String.intercalate ", " entry.tags ++
  "\n        Impact: " ++ entry.impact_level ++
  "\n        \n        Description:\n        " ++ entry.description ++
  "\n        \n        Changes:\n        " ++ format_changes entry.changes ++
  "\n        "

/-- The document `ProgressStorage.add_entry` hands to
`vector_store.add_texts` (text plus metadata). -/
def entry_doc (entry : ProgressEntry) : Doc :=
  { page_content := entry_text entry
  , metadata :=
      { id := entry.id
      , date := entry.date
      , category := entry.category
      , tags := entry.tags
      , impact_level := entry.impact_level } }

/-- Embedding of `ProgressStorage.add_entry` (src/storage_service.py lines
53-79): the
collaborator appends the new document to the collection. -/
def add_entry (s : Store) (entry : ProgressEntry) : Store :=
  { docs := s.docs ++ [entry_doc entry] }

/-- The filter dict built by `ProgressStorage.search`: a key is added only
when the query field is truthy (`if query.categories:` is false for both
`None` and the empty list). -/
def build_filter (q : SearchQuery) : FilterDict :=
  { category_in :=
      match q.categories with
      | none => none
      | some cs => if cs.isEmpty then none else some cs
  , tags_in :=
      match q.tags with
      | none => none
      | some ts => if ts.isEmpty then none else some ts }

/-- Modelled from the spec: the `$in` filter semantics of the
embedding/vector-store collaborator (spec sections 4.4 and 6, outside
src/): an absent key imposes no restriction, `category $in` requires the
stored category to be one of the listed values, and `tags $in` is
match-any over the stored tags. -/
def matchesFilter (f : FilterDict) (m : StoredMeta) : Bool :=
  (match f.category_in with
   | none => true
   | some cs => cs.contains m.category) &&
  (match f.tags_in with
   | none => true
   | some ts => m.tags.any (fun t => ts.contains t))

/-- Modelled from the spec: the collaborator's
`similarity_search_with_score` (spec section 6, outside src/): it returns
stored documents that match the filter, at most `k` of them; semantic
ranking is wholly the collaborator's and is abstracted as store order. -/
def similarity_search_with_score (s : Store) (f : FilterDict) (k : Nat) : List Doc :=
  (s.docs.filter (fun d => matchesFilter f d.metadata)).take k

/-- The per-document reconstruction inside `ProgressStorage.search`
(src/storage_service.py lines 99-111): the title is
`doc.page_content.split("\n")[1].replace("Title: ", "").strip()`, the
description is the whole blob, and `changes` is always the empty list. -/
def reconstruct_entry (d : Doc) : ProgressEntry :=
  { id := d.metadata.id
  , date := d.metadata.date
  , title := pyStripS (pyReplace ((pySplitNl d.page_content).getD 1 "") "Title: " "")
  , description := d.page_content
  , category := d.metadata.category
  , tags := d.metadata.tags
  , impact_level := d.metadata.impact_level
  , changes := [] }

/-- Embedding of `ProgressStorage.search` (src/storage_service.py lines
81-113). -/
def search (s : Store) (q : SearchQuery) (limit : Nat) : List ProgressEntry :=
  (similarity_search_with_score s (build_filter q) limit).map reconstruct_entry

end ProgressStorage

namespace MainApp

/-- Category keys in order of first appearance, as iteration over the
Python dict built by `sync_from_git` yields them (insertion order). -/
def categoriesOf (changes : List CodeChange) : List String :=
  changes.foldl (fun acc c => if acc.contains c.category then acc else acc ++ [c.category]) []

/-- The `changes_by_category` grouping of `sync_from_git` (src/main.py
lines 85-89): each key maps to its changes in encounter order. -/
def changes_by_category (changes : List CodeChange) : List (String × List CodeChange) :=
  (categoriesOf changes).map (fun cat => (cat, changes.filter (fun c => c.category = cat)))

/-- The description `sync_from_git` builds for one category group. -/
def sync_description (category_changes : List CodeChange) : String :=
  "Automated progress entry from git changes:\n\n" ++
    String.intercalate "\n" (category_changes.map (fun c => "- " ++ c.description))

/-- The entries created by `POST /sync/` (src/main.py lines 76-117): one
`create_progress_entry` call per category group (empty groups are skipped
by `if not category_changes: continue`); `now` stands for the wall clock
of the request. -/
def sync_from_git (r : RepoModel) (now : DateTime) : List ProgressEntry :=
  let changes := ProgressTracker.get_recent_changes r now.replaceHourMinute
  ((changes_by_category changes).filter (fun p => !p.2.isEmpty)).map (fun p =>
    ProgressTracker.create_progress_entry r now
      ("Daily progress update: " ++ toString p.2.length ++ " " ++ p.1 ++ " changes")
      (sync_description p.2) p.1 (some [p.1]) "minor")

end MainApp

/-- Errors of the version-control collaborator's `open` (spec sections 4.1,
6 and 7): the only failure of opening is `RepositoryNotFoundError`. -/
inductive RepoError where
  | repositoryNotFoundError
deriving DecidableEq, Repr

/-- The worlds the collaborator can be queried in: which paths hold a valid
repository, and its commits. -/
structure GitWorld where
  repoAt : String → Option RepoModel

/-- Modelled from the spec: the version-control collaborator's
`open(path) -> RepoHandle` (spec section 6, GitPython is outside src/):
fails with `RepositoryNotFoundError` exactly when the path is not a valid
repository. -/
def RepoOpen (w : GitWorld) (path : String) : Except RepoError RepoModel :=
  match w.repoAt path with
  | some r => Except.ok r
  | none => Except.error RepoError.repositoryNotFoundError

/-- Embedding of `ProgressTracker.__init__` (src/progress_tracker.py lines
8-10): it
calls `Repo(repo_path)` and installs the handle, adding no error handling
of its own. -/
def ProgressTracker.init (w : GitWorld) (path : String) : Except RepoError RepoModel :=
  RepoOpen w path

/-- A repository with one commit ten seconds after midnight, used to
separate the source's `since` from the spec's local midnight. -/
def repoCex : RepoModel :=
  ⟨[⟨"fix early bug", ["a.py"], ⟨2024, 5, 7, 0, 0, 10, 0⟩, "abc", "al", 1, 2⟩]⟩

/-- A call instant thirty seconds after midnight (nonzero seconds). -/
def nowCex : DateTime := ⟨2024, 5, 7, 0, 0, 30, 0⟩

/-- A repository with a mid-day commit and an early-morning commit, for
exercising the daily sync against the spec's midnight boundary. -/
def repoCexB : RepoModel :=
  ⟨[⟨"refactor cleanup", ["b.py"], ⟨2024, 5, 7, 12, 0, 0, 0⟩, "h2", "al", 1, 1⟩,
    ⟨"fix early bug", ["a.py"], ⟨2024, 5, 7, 0, 0, 10, 0⟩, "h3", "al", 1, 2⟩]⟩

/-- A late-evening call instant with nonzero seconds. -/
def nowCexB : DateTime := ⟨2024, 5, 7, 23, 0, 30, 0⟩

/-- A well-behaved progress entry (title without newline, label text or
surrounding whitespace). -/
def entryW : ProgressEntry :=
  ⟨"1715000000.0", ⟨2024, 5, 7, 9, 30, 0, 0⟩, "Good title", "did things", [], "bugfix",
    ["daily"], "minor"⟩

/-- A query with no category or tag filters. -/
def queryW : SearchQuery := ⟨"progress", none, none, none⟩

/-- A query filtering on the single category "bugfix". -/
def queryF : SearchQuery := ⟨"progress", some ["bugfix"], none, none⟩

/-- An entry whose title begins with the stored label text itself. -/
def entryCex : ProgressEntry :=
  ⟨"1715000001.0", ⟨2024, 5, 7, 9, 30, 0, 0⟩, "Title: x", "desc", [], "bugfix", [], "minor"⟩

/-- A git world in which no path is a valid repository. -/
def worldEmpty : GitWorld := ⟨fun _ => none⟩

/-- A repository with a single mid-day bugfix commit. -/
def repoW : RepoModel :=
  ⟨[⟨"fix x", ["a.py"], ⟨2024, 5, 7, 12, 0, 0, 0⟩, "h1", "al", 3, 1⟩]⟩

/-- An evening call instant with zero seconds. -/
def nowW : DateTime := ⟨2024, 5, 7, 23, 0, 0, 0⟩

/-- The entry the daily sync produces over `repoW` at `nowW`. -/
def entrySyncW : ProgressEntry :=
  ProgressTracker.create_progress_entry repoW nowW "Daily progress update: 1 bugfix changes"
    ("Automated progress entry from git changes:\n\n- fix x") "bugfix" (some ["bugfix"]) "minor"

/-- A prefix check against an appended copy of the pattern always succeeds. -/
lemma isPrefixOf_append_self (l t : List Char) : l.isPrefixOf (l ++ t) = true := by
  induction l with
  | nil => simp [List.isPrefixOf]
  | cons a l ih => simp [List.isPrefixOf, ih]

/-- A prefix check fails when the heads differ. -/
lemma isPrefixOf_cons_ne (p : Char) (ps : List Char) (c : Char) (cs : List Char)
    (h : p ≠ c) : (p :: ps).isPrefixOf (c :: cs) = false := by
  simp [List.isPrefixOf, h]

/-- Replacement walks past a region that never matches the pattern head. -/
lemma replaceFromAux_skip (p : Char) (ps repl : List Char) (l1 rest : List Char) (n : Nat)
    (h : ∀ a ∈ l1, p ≠ a) :
    replaceFromAux p ps repl (l1.length + n) (l1 ++ rest) = l1 ++ replaceFromAux p ps repl n rest := by
  induction l1 with
  | nil => simp
  | cons a t ih =>
    have hpa : p ≠ a := h a (List.mem_cons_self a t)
    have hlen : (a :: t).length + n = (t.length + n) + 1 := by simp; omega
    rw [hlen]
    simp only [List.cons_append, replaceFromAux]
    simp [hpa, ih (fun x hx => h x (List.mem_cons_of_mem a hx))]

/-- Replacement at an occurrence of the pattern emits the replacement and
continues after the occurrence. -/
lemma replaceFromAux_hit (p : Char) (ps repl t : List Char) (n : Nat) :
    replaceFromAux p ps repl (n + 1) ((p :: ps) ++ t) = repl ++ replaceFromAux p ps repl n t := by
  simp only [List.cons_append, replaceFromAux, isPrefixOf_append_self (p :: ps) t]
  simp [List.drop_left]

/-- Replacement leaves a pattern-free region unchanged. -/
lemma replaceFromAux_no_occ (p : Char) (ps repl : List Char) (t : List Char) (n : Nat)
    (hn : t.length ≤ n) (h : listContainsSub (p :: ps) t = false) :
    replaceFromAux p ps repl n t = t := by
  induction t generalizing n with
  | nil => cases n <;> rfl
  | cons a t ih =>
    cases n with
    | zero => simp at hn
    | succ m =>
      simp only [listContainsSub, Bool.or_eq_false_iff] at h
      simp only [replaceFromAux, h.1]
      simp only [List.length_cons, Nat.succ_le_succ_iff] at hn
      simp [ih m hn h.2, h.1]

/-- Splitting at a separator that opens the list yields a leading empty
segment. -/
lemma splitOnChar_cons_self (c : Char) (l : List Char) :
    splitOnChar c (c :: l) = [] :: splitOnChar c l := by
  simp [splitOnChar]

/-- Splitting a list whose first separator occurrence follows a clean
segment isolates that segment. -/
lemma splitOnChar_sep (c : Char) (l1 l2 : List Char) (h : ∀ a ∈ l1, a ≠ c) :
    splitOnChar c (l1 ++ c :: l2) = l1 :: splitOnChar c l2 := by
  induction l1 with
  | nil => simp [splitOnChar]
  | cons a t ih =>
    have ha : a ≠ c := h a (List.mem_cons_self a t)
    have ih' := ih (fun x hx => h x (List.mem_cons_of_mem a hx))
    simp only [List.cons_append, splitOnChar, if_neg ha, List.append_eq]
    rw [ih']

/-- The second line of a blob of shape newline, clean line, newline, rest
is that clean line. -/
lemma getD_split (pre t rest : List Char) (hp : ∀ a ∈ pre, a ≠ '\n') (ht : ∀ a ∈ t, a ≠ '\n') :
    ((splitOnChar '\n' ('\n' :: (pre ++ (t ++ '\n' :: rest)))).map String.mk).getD 1 "" =
      String.mk (pre ++ t) := by
  rw [splitOnChar_cons_self]
  rw [show pre ++ (t ++ '\n' :: rest) = (pre ++ t) ++ '\n' :: rest from by simp]
  rw [splitOnChar_sep]
  · simp
  · intro a ha
    rcases List.mem_append.mp ha with h | h
    · exact hp a h
    · exact ht a h

/-- The second line of the stored blob is the indented title line, provided
the title itself contains no newline. -/
lemma split_title (e : ProgressEntry) (hnl : ∀ a ∈ e.title.data, a ≠ '\n') :
    (pySplitNl (ProgressStorage.entry_text e)).getD 1 "" =
      String.mk ("        Title: ".data ++ e.title.data) := by
  have h1 : "\n        Title: ".data = '\n' :: "        Title: ".data := by decide
  have h2 : "\n        Date: ".data = '\n' :: "        Date: ".data := by decide
  have hpre : ∀ a ∈ "        Title: ".data, a ≠ '\n' := by decide
  unfold pySplitNl ProgressStorage.entry_text
  repeat rw [String.data_append]
  repeat rw [List.append_assoc]
  rw [h1, h2]
  rw [List.cons_append '\n' "        Title: ".data]
  rw [List.cons_append '\n' "        Date: ".data]
  rw [getD_split _ _ _ hpre hnl]

/-- Replacement over a skip region, one pattern occurrence and a
pattern-free tail. -/
lemma replaceFrom_skip_hit (p : Char) (ps repl sp t : List Char)
    (hsp : ∀ a ∈ sp, p ≠ a) (hno : listContainsSub (p :: ps) t = false) :
    replaceFrom p ps repl (sp ++ ((p :: ps) ++ t)) = sp ++ (repl ++ t) := by
  unfold replaceFrom
  rw [List.length_append]
  rw [replaceFromAux_skip p ps repl sp ((p :: ps) ++ t) _ hsp]
  rw [show ((p :: ps) ++ t).length = (ps ++ t).length + 1 from by simp]
  rw [replaceFromAux_hit p ps repl t (ps ++ t).length]
  rw [replaceFromAux_no_occ p ps repl t _ (by simp) hno]

/-- Stripping ignores a leading run of spaces. -/
lemma pyStrip_spaces8 (t : List Char) : pyStrip ("        ".data ++ t) = pyStrip t := by
  unfold pyStrip
  rw [show List.dropWhile isPySpace ("        ".data ++ t) = List.dropWhile isPySpace t from rfl]

/-- The title a search result reconstructs from a stored entry equals the
stored title whenever the title has no newline, does not contain the label
text "Title: " and carries no surrounding whitespace. -/
lemma reconstruct_entry_title (e : ProgressEntry)
    (hnl : ∀ a ∈ e.title.data, a ≠ '\n')
    (hlabel : listContainsSub "Title: ".data e.title.data = false)
    (hstrip : pyStrip e.title.data = e.title.data) :
    (ProgressStorage.reconstruct_entry (ProgressStorage.entry_doc e)).title = e.title := by
  have hlabel' : listContainsSub ('T' :: "itle: ".data) e.title.data = false := by
    rw [show ('T' :: "itle: ".data : List Char) = "Title: ".data from by decide]
    exact hlabel
  have hsp : ∀ a ∈ "        ".data, 'T' ≠ a := by decide
  show pyStripS (pyReplace
    ((pySplitNl (ProgressStorage.entry_doc e).page_content).getD 1 "") "Title: " "") = e.title
  rw [show (ProgressStorage.entry_doc e).page_content = ProgressStorage.entry_text e from rfl]
  rw [split_title e hnl]
  rw [show pyReplace (String.mk ("        Title: ".data ++ e.title.data)) "Title: " "" =
        String.mk (replaceFrom 'T' "itle: ".data "".data ("        Title: ".data ++ e.title.data))
      from rfl]
  rw [show "        Title: ".data ++ e.title.data =
        "        ".data ++ (('T' :: "itle: ".data) ++ e.title.data) from by
    rw [show "        Title: ".data = "        ".data ++ ('T' :: "itle: ".data) from by decide,
      List.append_assoc]]
  rw [replaceFrom_skip_hit 'T' "itle: ".data "".data "        ".data e.title.data hsp hlabel']
  rw [show ("".data : List Char) = [] from rfl, List.nil_append]
  rw [show pyStripS (String.mk ("        ".data ++ e.title.data)) =
        String.mk (pyStrip ("        ".data ++ e.title.data)) from rfl]
  rw [pyStrip_spaces8, hstrip]

/-- Claim C1 (amended): the changes fetched by `create_progress_entry` are
exactly those the Change Extractor returns for `since` equal to the call
instant with hour and minute zeroed — seconds and sub-second parts are
kept, so `since` is not in general local midnight. -/
theorem c1_create_entry_since_hour_minute_zeroed (r : RepoModel) (now : DateTime)
    (t d c : String) (g : Option (List String)) (i : String) :
    (ProgressTracker.create_progress_entry r now t d c g i).changes =
      ProgressTracker.get_recent_changes r now.replaceHourMinute := rfl

/-- Claim C1, counterexample: called thirty seconds after midnight over a
repository with a commit ten seconds after midnight, the entry's changes
differ from an extraction at local midnight (the commit is missed). -/
theorem c1_counterexample_not_local_midnight :
    (ProgressTracker.create_progress_entry repoCex nowCex "t" "d" "c" none "minor").changes ≠
      ProgressTracker.get_recent_changes repoCex (midnight_of_spec nowCex) := by decide

/-- Claim C2 (amended): for an entry stored via `add_entry`, the title that
`search` reconstructs from the blob's second line equals the original
title, provided the title contains no newline, does not contain the label
text "Title: " and equals its own whitespace-strip. -/
theorem c2_title_round_trip (entry : ProgressEntry) (q : SearchQuery) (limit : Nat)
    (hnl : ∀ a ∈ entry.title.data, a ≠ '\n')
    (hlabel : listContainsSub "Title: ".data entry.title.data = false)
    (hstrip : pyStrip entry.title.data = entry.title.data) :
    ∀ e ∈ ProgressStorage.search (ProgressStorage.add_entry ⟨[]⟩ entry) q limit,
      e.title = entry.title := by
  intro e he
  simp only [ProgressStorage.search, ProgressStorage.similarity_search_with_score,
    ProgressStorage.add_entry, List.mem_map] at he
  obtain ⟨d, hd, rfl⟩ := he
  have hd' := List.mem_filter.mp (List.mem_of_mem_take hd)
  have hdoc : d = ProgressStorage.entry_doc entry := by simpa using hd'.1
  rw [hdoc]
  exact reconstruct_entry_title entry hnl hlabel hstrip

set_option maxRecDepth 40000 in
/-- Claim C2, witness: the entry titled "Good title" satisfies the side
conditions, is returned by a filterless search over the store holding it,
and its title round-trips. -/
theorem c2_title_round_trip_witness :
    (∀ a ∈ entryW.title.data, a ≠ '\n') ∧
    listContainsSub "Title: ".data entryW.title.data = false ∧
    pyStrip entryW.title.data = entryW.title.data ∧
    ProgressStorage.reconstruct_entry (ProgressStorage.entry_doc entryW) ∈
      ProgressStorage.search (ProgressStorage.add_entry ⟨[]⟩ entryW) queryW 5 ∧
    (ProgressStorage.reconstruct_entry (ProgressStorage.entry_doc entryW)).title = entryW.title :=
  ⟨by decide, by decide, by decide, by decide,
    c2_title_round_trip entryW queryW 5 (by decide) (by decide) (by decide)
      (ProgressStorage.reconstruct_entry (ProgressStorage.entry_doc entryW)) (by decide)⟩

set_option maxRecDepth 40000 in
/-- Claim C2, counterexample: the stored entry titled "Title: x" is
reconstructed by search with title "x", not its original title — the claim
fails for titles containing the label text. -/
theorem c2_counterexample_title_label :
    (ProgressStorage.search (ProgressStorage.add_entry ⟨[]⟩ entryCex) queryW 5).map
        ProgressEntry.title ≠ [entryCex.title] := by decide

/-- Claim C3: whenever some file path ends in a recognized test-file suffix,
the category is testing, for every message — file rules precede message
rules. -/
theorem c3_test_files_precede_message (files : List String) (message : String)
    (h : files.any isTestFile = true) :
    ProgressTracker.categorize_commit files message = "testing" := by
  simp [ProgressTracker.categorize_commit, h]

/-- Claim C3, witness: a test file with a bugfix-sounding message is still
categorized testing. -/
theorem c3_test_files_precede_message_witness :
    (["app.test.ts"].any isTestFile = true) ∧
    ProgressTracker.categorize_commit ["app.test.ts"] "Fix crash on startup" = "testing" :=
  ⟨by decide, c3_test_files_precede_message ["app.test.ts"] "Fix crash on startup" (by decide)⟩

/-- Claim C4: the categorizer is a total function (every input yields a
result by construction, deterministically) whose value always lies in the
fixed six-label enumeration. -/
theorem c4_categorizer_total_enumeration (files : List String) (message : String) :
    ProgressTracker.categorize_commit files message ∈
      ["testing", "ui", "bugfix", "feature", "refactor", "other"] := by
  simp only [ProgressTracker.categorize_commit]
  split_ifs <;> simp

/-- Claim C5: a message containing "fix" or "bug" (checked on the lowered
message, hence case-insensitively), with no test-file and no
stylesheet/markup signal in the file list, is categorized bugfix. -/
theorem c5_fix_bug_message_gives_bugfix (files : List String) (message : String)
    (hmsg : pyContains (pyLower message) "fix" = true ∨
      pyContains (pyLower message) "bug" = true)
    (htest : files.any isTestFile = false) (hui : files.any isUiFile = false) :
    ProgressTracker.categorize_commit files message = "bugfix" := by
  rcases hmsg with h | h <;> simp [ProgressTracker.categorize_commit, htest, hui, h]

/-- Claim C5, witness: the spec's own example, files src/api.py and message
"Fix crash on startup", is categorized bugfix. -/
theorem c5_fix_bug_message_gives_bugfix_witness :
    (pyContains (pyLower "Fix crash on startup") "fix" = true ∨
      pyContains (pyLower "Fix crash on startup") "bug" = true) ∧
    (["src/api.py"].any isTestFile = false) ∧
    (["src/api.py"].any isUiFile = false) ∧
    ProgressTracker.categorize_commit ["src/api.py"] "Fix crash on startup" = "bugfix" :=
  ⟨Or.inl (by decide), by decide, by decide,
    c5_fix_bug_message_gives_bugfix ["src/api.py"] "Fix crash on startup"
      (Or.inl (by decide)) (by decide) (by decide)⟩

/-- Claim C6: with `categories = ["bugfix"]` every entry search returns has
stored category metadata "bugfix"; and with no categories and no tags
filter, search imposes no restriction beyond the result limit. -/
theorem c6_category_filter_law :
    (∀ (s : Store) (q : SearchQuery) (limit : Nat), q.categories = some ["bugfix"] →
      ∀ e ∈ ProgressStorage.search s q limit, e.category = "bugfix") ∧
    (∀ (s : Store) (q : SearchQuery) (limit : Nat), q.categories = none → q.tags = none →
      ProgressStorage.search s q limit =
        (s.docs.take limit).map ProgressStorage.reconstruct_entry) := by
  constructor
  · intro s q limit hq e he
    simp only [ProgressStorage.search, ProgressStorage.similarity_search_with_score,
      List.mem_map] at he
    obtain ⟨d, hd, rfl⟩ := he
    have hm := (List.mem_filter.mp (List.mem_of_mem_take hd)).2
    simp only [ProgressStorage.matchesFilter, ProgressStorage.build_filter, hq] at hm
    simp only [Bool.and_eq_true] at hm
    have h1 := hm.1
    simp at h1
    simpa [ProgressStorage.reconstruct_entry] using h1
  · intro s q limit hq ht
    simp [ProgressStorage.search, ProgressStorage.similarity_search_with_score,
      ProgressStorage.build_filter, ProgressStorage.matchesFilter, hq, ht]

set_option maxRecDepth 40000 in
/-- Claim C6, witness: the bugfix-filtered search over a store holding a
bugfix entry returns that entry, and its category is bugfix. -/
theorem c6_category_filter_law_witness :
    queryF.categories = some ["bugfix"] ∧
    ProgressStorage.reconstruct_entry (ProgressStorage.entry_doc entryW) ∈
      ProgressStorage.search (ProgressStorage.add_entry ⟨[]⟩ entryW) queryF 5 ∧
    (ProgressStorage.reconstruct_entry (ProgressStorage.entry_doc entryW)).category = "bugfix" :=
  ⟨rfl, by decide,
    c6_category_filter_law.1 (ProgressStorage.add_entry ⟨[]⟩ entryW) queryF 5 rfl
      (ProgressStorage.reconstruct_entry (ProgressStorage.entry_doc entryW)) (by decide)⟩

/-- Claim C7: over any world in which the path holds no valid repository,
constructing the tracker fails with RepositoryNotFoundError — the only
error the collaborator's open can produce, and the constructor adds no
handling of its own. -/
theorem c7_invalid_path_repository_not_found (w : GitWorld) (path : String)
    (h : w.repoAt path = none) :
    ProgressTracker.init w path = Except.error RepoError.repositoryNotFoundError := by
  simp [ProgressTracker.init, RepoOpen, h]

/-- Claim C7, witness: in the world with no repositories, construction over
the path /nowhere fails with RepositoryNotFoundError. -/
theorem c7_invalid_path_repository_not_found_witness :
    worldEmpty.repoAt "/nowhere" = none ∧
    ProgressTracker.init worldEmpty "/nowhere" =
      Except.error RepoError.repositoryNotFoundError :=
  ⟨rfl, c7_invalid_path_repository_not_found worldEmpty "/nowhere" rfl⟩

/-- Claim C8: every entry reconstructed by search has an empty changes
list. -/
theorem c8_search_changes_always_empty (s : Store) (q : SearchQuery) (limit : Nat)
    (e : ProgressEntry) (he : e ∈ ProgressStorage.search s q limit) : e.changes = [] := by
  simp only [ProgressStorage.search, List.mem_map] at he
  obtain ⟨d, _, rfl⟩ := he
  rfl

set_option maxRecDepth 40000 in
/-- Claim C8, witness: the search result over a store holding one entry has
empty changes even though the stored entry could have had changes. -/
theorem c8_search_changes_always_empty_witness :
    ProgressStorage.reconstruct_entry (ProgressStorage.entry_doc entryW) ∈
      ProgressStorage.search (ProgressStorage.add_entry ⟨[]⟩ entryW) queryW 5 ∧
    (ProgressStorage.reconstruct_entry (ProgressStorage.entry_doc entryW)).changes = [] :=
  ⟨by decide,
    c8_search_changes_always_empty (ProgressStorage.add_entry ⟨[]⟩ entryW) queryW 5
      (ProgressStorage.reconstruct_entry (ProgressStorage.entry_doc entryW)) (by decide)⟩

/-- Claim C9: with tags omitted (Python None) the created entry's tags are
empty; with both defaults the impact level is "minor"; and any supplied
impact level string is stored verbatim, with no enumeration validation
(creation always succeeds, being a total function). -/
theorem c9_tags_default_impact_passthrough (r : RepoModel) (now : DateTime)
    (t d c : String) (g : Option (List String)) (i : String) :
    (ProgressTracker.create_progress_entry r now t d c none i).tags = [] ∧
    (ProgressTracker.create_progress_entry_defaults r now t d c).impact_level = "minor" ∧
    (ProgressTracker.create_progress_entry r now t d c g i).impact_level = i :=
  ⟨rfl, rfl, rfl⟩

/-- Claim C10 (amended): the changes of a created entry equal the full
extraction at `since` = call time with hour and minute zeroed, independent
of every explicit argument, and every entry produced by the daily sync
carries that entire change set rather than only its own category's
changes. -/
theorem c10_changes_argument_independent_full_set (r : RepoModel) (now : DateTime)
    (t1 d1 c1 : String) (g1 : Option (List String)) (i1 : String)
    (t2 d2 c2 : String) (g2 : Option (List String)) (i2 : String)
    (e : ProgressEntry) (he : e ∈ MainApp.sync_from_git r now) :
    (ProgressTracker.create_progress_entry r now t1 d1 c1 g1 i1).changes =
      ProgressTracker.get_recent_changes r now.replaceHourMinute ∧
    (ProgressTracker.create_progress_entry r now t1 d1 c1 g1 i1).changes =
      (ProgressTracker.create_progress_entry r now t2 d2 c2 g2 i2).changes ∧
    e.changes = ProgressTracker.get_recent_changes r now.replaceHourMinute := by
  refine ⟨rfl, rfl, ?_⟩
  simp only [MainApp.sync_from_git, List.mem_map] at he
  obtain ⟨p, hp, rfl⟩ := he
  rfl

set_option maxRecDepth 40000 in
/-- Claim C10, witness: over a one-commit repository the sync produces one
entry, and its changes equal the full extraction, which also does not vary
with the creation arguments. -/
theorem c10_changes_argument_independent_full_set_witness :
    entrySyncW ∈ MainApp.sync_from_git repoW nowW ∧
    ((ProgressTracker.create_progress_entry repoW nowW "t" "d" "c" none "minor").changes =
        ProgressTracker.get_recent_changes repoW nowW.replaceHourMinute ∧
      (ProgressTracker.create_progress_entry repoW nowW "t" "d" "c" none "minor").changes =
        (ProgressTracker.create_progress_entry repoW nowW "u" "e" "f" (some ["x"]) "major").changes ∧
      entrySyncW.changes = ProgressTracker.get_recent_changes repoW nowW.replaceHourMinute) :=
  ⟨by decide,
    c10_changes_argument_independent_full_set repoW nowW "t" "d" "c" none "minor"
      "u" "e" "f" (some ["x"]) "major" entrySyncW (by decide)⟩

/-- Claim C10, counterexample: with a commit ten seconds after midnight and
a sync thirty seconds past an hour boundary, the single entry the sync
creates does not carry the change set extracted from the start of the
current day (local midnight) — the early commit is missing. -/
theorem c10_counterexample_not_midnight_full_set :
    (MainApp.sync_from_git repoCexB nowCexB).map ProgressEntry.changes ≠
      [ProgressTracker.get_recent_changes repoCexB (midnight_of_spec nowCexB)] := by decide
